import Mathlib

/-!
Verification development for the transform-and-codegen pipeline of
`langchain_service.py`: the source normalizer `transform_for_zkengine`,
the fingerprint matcher / template generator
`generate_wat_from_c_analysis` (with its inner helper `extract_value`),
the artifact orchestrator `compile_to_wasm`, and the endpoint handler
`compile_transformed`.

Python text is modelled as `List Char` (`Txt`).  The small regular
expressions used by the source are hand-compiled into deterministic
scanners; every scanner carries a doc comment quoting the regex it
implements.  Each of those regexes is backtracking-free in the sense
that greedy matching of each `\s*`, `\d+`, `[^X]+` piece is forced
(the character class of a piece never overlaps the literal that
follows it), so a straight-line greedy scanner is an exact model of
Python `re` on them.  `re.sub` scanning is modelled by `scanSub`,
which walks the text left to right, replacing non-overlapping matches
and advancing one character when a position does not match, exactly as
Python does.  The recursive scanners use a fuel argument initialised
with the length of the text; every match consumes at least one
character, so the fuel never runs out, and it keeps every definition
structurally recursive and hence kernel-computable.
-/

/-- Python text, modelled as a list of characters. -/
abbrev Txt := List Char

/-- String literal to `Txt`. -/
def lit (s : String) : Txt := s.toList

/-- Python regex class `\s` on ASCII text: space, TAB, LF, CR, VT, FF. -/
def isPySpace (c : Char) : Bool :=
  c == ' ' || c == '\t' || c == '\n' || c == '\r' || c == Char.ofNat 11 || c == Char.ofNat 12

/-- Python regex class `\w` on ASCII text. -/
def isWordChar (c : Char) : Bool :=
  (decide ('a' ≤ c) && decide (c ≤ 'z')) || (decide ('A' ≤ c) && decide (c ≤ 'Z')) ||
    (decide ('0' ≤ c) && decide (c ≤ '9')) || c == '_'

/-- Python regex class `\d`. -/
def isDigitChar (c : Char) : Bool := decide ('0' ≤ c) && decide (c ≤ '9')

/-- Python `str.lower` on ASCII text (single character). -/
def pyLowerChar (c : Char) : Char :=
  if 'A' ≤ c ∧ c ≤ 'Z' then Char.ofNat (c.toNat + 32) else c

/-- Python `str.lower` on ASCII text. -/
def pyLowerTxt (s : Txt) : Txt := s.map pyLowerChar

/-- Python substring test `sub in s`. -/
def hasSub (sub : Txt) : Txt → Bool
  | [] => sub.isEmpty
  | c :: rest => sub.isPrefixOf (c :: rest) || hasSub sub rest

/-- Numeric value of a digit string, Python `int(...)` applied to a `\d+` match. -/
def natOfDigits (ds : Txt) : Nat := ds.foldl (fun n c => 10 * n + (c.toNat - 48)) 0

/-- Python `s[:i] + ins + s[i:]`. -/
def insertAt (i : Nat) (ins s : Txt) : Txt := s.take i ++ ins ++ s.drop i

/-- Helper for `rfindSub`, scanning with a running index and keeping the last hit. -/
def rfindSubGo (sub : Txt) : Nat → Txt → Option Nat → Option Nat
  | _, [], acc => acc
  | i, c :: rest, acc =>
      rfindSubGo sub (i + 1) rest (if sub.isPrefixOf (c :: rest) then some i else acc)

/-- Python `s.rfind(sub)` for nonempty `sub`, with `none` for Python's `-1`. -/
def rfindSub (sub s : Txt) : Option Nat := rfindSubGo sub 0 s none

/-- Helper for `findCharFrom`. -/
def findCharFromGo (ch : Char) (start : Nat) : Nat → Txt → Option Nat
  | _, [] => none
  | i, c :: rest =>
      if start ≤ i ∧ c = ch then some i else findCharFromGo ch start (i + 1) rest

/-- Python `s.find(ch, start)` for a single character, `none` for `-1`. -/
def findCharFrom (ch : Char) (start : Nat) (s : Txt) : Option Nat :=
  findCharFromGo ch start 0 s

/-- Helper for `findSub`. -/
def findSubGo (sub : Txt) : Nat → Txt → Option Nat
  | _, [] => none
  | i, c :: rest =>
      if sub.isPrefixOf (c :: rest) then some i else findSubGo sub (i + 1) rest

/-- Python `s.find(sub)` for nonempty `sub`, with `none` for Python's `-1`. -/
def findSub (sub s : Txt) : Option Nat := findSubGo sub 0 s

/-- Scanning core of Python `re.sub`: at each position try the matcher `m`,
which returns the length of the match and its replacement text; on a match,
emit the replacement and continue after the matched span, otherwise keep the
character and move one position right.  The fuel starts at the text length;
every matcher fed to it consumes at least one character per match, so the
fuel never runs out before the text does. -/
def scanSub (m : Txt → Option (Nat × Txt)) : Nat → Txt → Txt
  | _, [] => []
  | 0, s => s
  | fuel + 1, c :: rest =>
      match m (c :: rest) with
      | some (k, r) => r ++ scanSub m fuel ((c :: rest).drop k)
      | none => c :: scanSub m fuel rest

/-- Python `re.sub(pattern, repl, s)` with `pattern` compiled to the matcher `m`. -/
def pySub (m : Txt → Option (Nat × Txt)) (s : Txt) : Txt := scanSub m s.length s

/-- Python `re.search(pattern, s) is not None` for a compiled matcher. -/
def hasMatch (m : Txt → Option (Nat × Txt)) : Txt → Bool
  | [] => (m []).isSome
  | c :: rest => (m (c :: rest)).isSome || hasMatch m rest

/-- Python `re.search`, returning the value the matcher computes at the
leftmost matching position. -/
def firstMatch (m : Txt → Option Nat) : Txt → Option Nat
  | [] => m []
  | c :: rest =>
      match m (c :: rest) with
      | some v => some v
      | none => firstMatch m rest

/-- Helper for `lastEnd`: Python `re.finditer`, keeping the end offset of the
last non-overlapping, left-to-right match; the accumulator starts at `0`,
matching the source's `includes_end = 0`. -/
def lastEndGo (m : Txt → Option Nat) : Nat → Nat → Txt → Nat → Nat
  | _, _, [], acc => acc
  | 0, _, _, acc => acc
  | fuel + 1, pos, c :: rest, acc =>
      match m (c :: rest) with
      | some k => lastEndGo m fuel (pos + k) ((c :: rest).drop k) (pos + k)
      | none => lastEndGo m fuel (pos + 1) rest acc

/-- End offset of the last match of `m`, `0` when there is none (source
lines 147-153: the `includes_end` computation of the malloc rule). -/
def lastEnd (m : Txt → Option Nat) (s : Txt) : Nat := lastEndGo m s.length 0 s 0

/-- Scanner for `re.sub(r'\bint\s+', 'int32_t ', code)` and its `float` twin
(source lines 124-125): `prevWord` tracks whether the preceding character is
a `\w` character, so that `\b` holds exactly when `prevWord = false`; a match
consumes the keyword and the maximal nonempty whitespace run after it and
emits the replacement. -/
def subKwWs (kw rep : Txt) : Bool → Nat → Txt → Txt
  | _, _, [] => []
  | _, 0, s => s
  | prevWord, fuel + 1, c :: rest =>
      if (!prevWord) && kw.isPrefixOf (c :: rest)
          && !(((c :: rest).drop kw.length).takeWhile isPySpace).isEmpty then
        rep ++ subKwWs kw rep false fuel (((c :: rest).drop kw.length).dropWhile isPySpace)
      else
        c :: subKwWs kw rep (isWordChar c) fuel rest

/-- Entry point for `subKwWs`: at position 0 there is no preceding character,
so a word boundary holds. -/
def pySubKwWs (kw rep s : Txt) : Txt := subKwWs kw rep false s.length s

/-- Matcher for `printf\s*\([^;]+\);` (and the `scanf` twin, source lines
130 and 134): after the name, optional whitespace and `(`, the first `;`
must be immediately preceded by `)` with at least one non-`;` character
between the parentheses.  The replacement `rep` is the no-op comment
statement. -/
def callStmtM (name rep : Txt) (s : Txt) : Option (Nat × Txt) :=
  if name.isPrefixOf s then
    let t0 := s.drop name.length
    let wsn := (t0.takeWhile isPySpace).length
    match t0.drop wsn with
    | '(' :: t2 =>
        let bodyn := (t2.takeWhile (fun c => c ≠ ';')).length
        match t2.drop bodyn with
        | ';' :: _ =>
            if 2 ≤ bodyn ∧ (t2.take bodyn).getLast? = some ')' then
              some (name.length + wsn + 1 + bodyn + 1, rep)
            else none
        | _ => none
    | _ => none
  else none

/-- Matcher for `int32_t\s+main\s*\([^)]*\)` (source lines 139-142), with the
fixed replacement `int32_t main()`. -/
def mainSigM (s : Txt) : Option (Nat × Txt) :=
  if (lit "int32_t").isPrefixOf s then
    let t0 := s.drop 7
    let ws1 := (t0.takeWhile isPySpace).length
    if ws1 = 0 then none
    else
      let t1 := t0.drop ws1
      if (lit "main").isPrefixOf t1 then
        let t2 := t1.drop 4
        let ws2 := (t2.takeWhile isPySpace).length
        match t2.drop ws2 with
        | '(' :: t3 =>
            let bodyn := (t3.takeWhile (fun c => c ≠ ')')).length
            match t3.drop bodyn with
            | ')' :: _ => some (7 + ws1 + 4 + ws2 + 1 + bodyn + 1, lit "int32_t main()")
            | _ => none
        | _ => none
      else none
  else none

/-- Matcher for `(\w+)\s*=\s*malloc\([^)]+\)` with replacement
`\1 = (int32_t*)stack_buffer` (source line 157); the replacement re-emits
the captured variable name. -/
def mallocAssignM (s : Txt) : Option (Nat × Txt) :=
  let w := s.takeWhile isWordChar
  if w.isEmpty then none
  else
    let t0 := s.drop w.length
    let ws1 := (t0.takeWhile isPySpace).length
    match t0.drop ws1 with
    | '=' :: t1 =>
        let ws2 := (t1.takeWhile isPySpace).length
        let t2 := t1.drop ws2
        if (lit "malloc(").isPrefixOf t2 then
          let t3 := t2.drop 7
          let bodyn := (t3.takeWhile (fun c => c ≠ ')')).length
          match t3.drop bodyn with
          | ')' :: _ =>
              if 1 ≤ bodyn then
                some (w.length + ws1 + 1 + ws2 + 7 + bodyn + 1,
                  w ++ lit " = (int32_t*)stack_buffer")
              else none
          | _ => none
        else none
    | _ => none

/-- Matcher for `free\s*\([^)]+\);` with replacement `/* free removed */;`
(source line 158). -/
def freeCallM (s : Txt) : Option (Nat × Txt) :=
  if (lit "free").isPrefixOf s then
    let t0 := s.drop 4
    let wsn := (t0.takeWhile isPySpace).length
    match t0.drop wsn with
    | '(' :: t2 =>
        let bodyn := (t2.takeWhile (fun c => c ≠ ')')).length
        match t2.drop bodyn with
        | ')' :: ';' :: _ =>
            if 1 ≤ bodyn then some (4 + wsn + 1 + bodyn + 2, lit "/* free removed */;")
            else none
        | _ => none
    | _ => none
  else none

/-- Matcher for `#include\s*<[^>]+>` (source line 149), returning the length
of the match; used only through `lastEnd`. -/
def includeDirM (s : Txt) : Option Nat :=
  if (lit "#include").isPrefixOf s then
    let t0 := s.drop 8
    let wsn := (t0.takeWhile isPySpace).length
    match t0.drop wsn with
    | '<' :: t2 =>
        let bodyn := (t2.takeWhile (fun c => c ≠ '>')).length
        match t2.drop bodyn with
        | '>' :: _ => if 1 ≤ bodyn then some (8 + wsn + 1 + bodyn + 1) else none
        | _ => none
    | _ => none
  else none

/-- Rule 1 of `transform_for_zkengine` (source lines 110-121): insert
`#include <stdint.h>` after the last existing include directive (or at the
top when there is none) when the text uses `int `/`float ` but mentions
neither `int32_t` nor the include already. -/
def includeStep (code : Txt) : Txt × List Txt :=
  if ¬ hasSub (lit "int32_t") code = true ∧
      (hasSub (lit "int ") code = true ∨ hasSub (lit "float ") code = true) then
    if ¬ hasSub (lit "#include <stdint.h>") code = true then
      let code' :=
        match rfindSub (lit "#include") code with
        | some p =>
            match findCharFrom '\n' p code with
            | some np => insertAt (np + 1) (lit "#include <stdint.h>\n") code
            | none => code ++ lit "\n#include <stdint.h>\n"
        | none => lit "#include <stdint.h>\n\n" ++ code
      (code', [lit "Added #include <stdint.h>"])
    else (code, [])
  else (code, [])

/-- Rule 2 of `transform_for_zkengine` (source lines 124-125): the two
unconditional type-narrowing substitutions. -/
def typeStep (code : Txt) : Txt :=
  pySubKwWs (lit "float") (lit "int32_t ") (pySubKwWs (lit "int") (lit "int32_t ") code)

/-- Rule 3 of `transform_for_zkengine` (source lines 129-131): `printf`
removal, with its change-log entry appended whenever the substring `printf`
occurs (whether or not the regex rewrites anything). -/
def printfStep (code : Txt) : Txt × List Txt :=
  if hasSub (lit "printf") code = true then
    (pySub (callStmtM (lit "printf") (lit "/* printf removed */;")) code,
      [lit "Removed printf statements"])
  else (code, [])

/-- Rule 3 of `transform_for_zkengine` for `scanf` (source lines 133-135). -/
def scanfStep (code : Txt) : Txt × List Txt :=
  if hasSub (lit "scanf") code = true then
    (pySub (callStmtM (lit "scanf") (lit "/* scanf removed */;")) code,
      [lit "Removed scanf statements"])
  else (code, [])

/-- Rule 4 of `transform_for_zkengine` (source lines 139-143): entry-point
signature normalization. -/
def mainStep (code : Txt) : Txt × List Txt :=
  if hasMatch mainSigM code = true then
    (pySub mainSigM code, [lit "Fixed main signature for hardcoded values"])
  else (code, [])

/-- Rule 5 of `transform_for_zkengine` (source lines 146-164): heap-to-stack
conversion.  `code.find('{', code.find('main'))` is modelled including
Python's negative-start behaviour: when `main` is absent, `find` returns
`-1`, and `find('{', -1)` searches from index `len - 1`. -/
def mallocStep (code : Txt) : Txt × List Txt :=
  if hasSub (lit "malloc") code = true then
    let codeA :=
      if ¬ hasSub (lit "#define BUFFER_SIZE") code = true then
        let includesEnd := lastEnd includeDirM code
        if 0 < includesEnd then insertAt includesEnd (lit "\n#define BUFFER_SIZE 1000\n") code
        else lit "#define BUFFER_SIZE 1000\n" ++ code
      else code
    let codeB := pySub mallocAssignM codeA
    let codeC := pySub freeCallM codeB
    let codeD :=
      let braceAfterMain :=
        match findSub (lit "main") codeC with
        | some p => findCharFrom '{' p codeC
        | none => findCharFrom '{' (codeC.length - 1) codeC
      match braceAfterMain with
      | some q =>
          if 0 < q then insertAt (q + 1) (lit "\n    int32_t stack_buffer[BUFFER_SIZE];\n") codeC
          else codeC
      | none => codeC
    (codeD, [lit "Converted dynamic allocation to stack"])
  else (code, [])

/-- `transform_for_zkengine` (source lines 105-166): applies the five rewrite
rules in order and returns the rewritten text together with the ordered
change log.  The entry `Converted int/float to int32_t` is appended
unconditionally, exactly as in the source (line 126). -/
def transform_for_zkengine (code : Txt) : Txt × List Txt :=
  let s1 := includeStep code
  let t2 := typeStep s1.1
  let s3 := printfStep t2
  let s4 := scanfStep s3.1
  let s5 := mainStep s4.1
  let s6 := mallocStep s5.1
  (s6.1, s1.2 ++ [lit "Converted int/float to int32_t"] ++ s3.2 ++ s4.2 ++ s5.2 ++ s6.2)

/-- Tail of the assignment probe regex `<name>\s*=\s*(\d+)` after the
candidate name has been consumed (source line 177): optional whitespace,
`=`, optional whitespace, then a nonempty greedy digit run whose numeric
value is returned. -/
def assignTail (t : Txt) : Option Nat :=
  match t.drop (t.takeWhile isPySpace).length with
  | '=' :: t1 =>
      let t2 := t1.drop (t1.takeWhile isPySpace).length
      let ds := t2.takeWhile isDigitChar
      if ds.isEmpty then none else some (natOfDigits ds)
  | _ => none

/-- Assignment probe `<var>\s*=\s*(\d+)` at one position. -/
def matchAssign (var : Txt) (s : Txt) : Option Nat :=
  if var.isPrefixOf s then assignTail (s.drop var.length) else none

/-- Call probe `<func>\s*\(\s*(\d+)\s*\)` at one position (source line 182). -/
def matchCallVal (funcName : Txt) (s : Txt) : Option Nat :=
  if funcName.isPrefixOf s then
    let t0 := s.drop funcName.length
    match t0.drop (t0.takeWhile isPySpace).length with
    | '(' :: t1 =>
        let t2 := t1.drop (t1.takeWhile isPySpace).length
        let ds := t2.takeWhile isDigitChar
        if ds.isEmpty then none
        else
          let t3 := t2.drop ds.length
          match t3.drop (t3.takeWhile isPySpace).length with
          | ')' :: _ => some (natOfDigits ds)
          | _ => none
    | _ => none
  else none

/-- `extract_value` (source lines 174-185): for each candidate variable name
in order, first the assignment probe over the whole text, then — still
inside the same loop iteration — the call probe over the whole text; the
hard-coded default is returned only when every probe has failed. -/
def extract_value (code : Txt) (varNames : List Txt) (funcName : Option Txt)
    (defaultVal : Nat) : Nat :=
  match varNames with
  | [] => defaultVal
  | var :: rest =>
      match firstMatch (matchAssign var) code with
      | some v => v
      | none =>
          match funcName with
          | some f =>
              match firstMatch (matchCallVal f) code with
              | some v => v
              | none => extract_value code rest funcName defaultVal
          | none => extract_value code rest funcName defaultVal

/-- Alternation probe `(?:a|x|first)\s*=\s*(\d+)` of the GCD branch (source
lines 417-418): at each position the alternatives are tried in order. -/
def altAssignVal (alts : List Txt) (s : Txt) : Option Nat :=
  alts.findSome? (fun alt => if alt.isPrefixOf s then assignTail (s.drop alt.length) else none)

/-- Detection predicate of the primality family: `'is_prime' in code`
(source line 187, case-sensitive). -/
def hasPrimeCue (code : Txt) : Bool := hasSub (lit "is_prime") code

/-- Detection predicate of the Collatz family: `'collatz' in code.lower()`
(source line 237, case-insensitive). -/
def hasCollatzCue (code : Txt) : Bool := hasSub (lit "collatz") (pyLowerTxt code)

/-- Detection predicate of the digital-root family:
`'digital_root' in code or 'digit_sum' in code` (source line 288,
case-sensitive — the source does not lowercase here). -/
def hasDigitalCue (code : Txt) : Bool :=
  hasSub (lit "digital_root") code || hasSub (lit "digit_sum") code

/-- Detection predicate of the Fibonacci family: `'fibonacci' in code`
(source line 336, case-sensitive). -/
def hasFibCue (code : Txt) : Bool := hasSub (lit "fibonacci") code

/-- Detection predicate of the factorial family: `'factorial' in code`
(source line 380, case-sensitive). -/
def hasFactCue (code : Txt) : Bool := hasSub (lit "factorial") code

/-- Detection predicate of the GCD family:
`'gcd' in code or 'greatest_common' in code` (source line 415,
case-sensitive). -/
def hasGcdCue (code : Txt) : Bool :=
  hasSub (lit "gcd") code || hasSub (lit "greatest_common") code

/-- Candidate variable names of the primality family (source line 188). -/
def primeVars : List Txt := [lit "number_to_check", lit "n", lit "num"]

/-- Extracted parameter of the primality family (source line 188). -/
def primeParam (code : Txt) : Nat := extract_value code primeVars (some (lit "is_prime")) 17

/-- Extracted parameter of the Collatz family (source line 238). -/
def collatzParam (code : Txt) : Nat :=
  extract_value code [lit "starting_number", lit "start", lit "n"] (some (lit "collatz")) 27

/-- Extracted parameter of the digital-root family (source line 289). -/
def digitalParam (code : Txt) : Nat :=
  extract_value code [lit "input_number", lit "num", lit "n"] (some (lit "digital_root")) 12345

/-- Extracted parameter of the Fibonacci family (source line 337). -/
def fibParam (code : Txt) : Nat :=
  extract_value code [lit "n", lit "num", lit "value"] (some (lit "fibonacci")) 10

/-- Extracted parameter of the factorial family (source line 381). -/
def factParam (code : Txt) : Nat :=
  extract_value code [lit "n", lit "num", lit "value"] (some (lit "factorial")) 5

/-- First GCD operand: `(?:a|x|first)\s*=\s*(\d+)` with default 48 (source
lines 417, 419). -/
def gcdAval (code : Txt) : Nat :=
  (firstMatch (altAssignVal [lit "a", lit "x", lit "first"]) code).getD 48

/-- Second GCD operand: `(?:b|y|second)\s*=\s*(\d+)` with default 18 (source
lines 418, 420). -/
def gcdBval (code : Txt) : Nat :=
  (firstMatch (altAssignVal [lit "b", lit "y", lit "second"]) code).getD 18
def watPrime (value : Nat) : Txt :=
  lit "(module\n  ;; Prime checker for " ++ (lit (toString value)) ++ lit " - REAL ALGORITHM\n  (func (export \"main\") (param $dummy i32) (result i32)\n    (local $n i32)\n    (local $i i32)\n    \n    ;; Set n = " ++ (lit (toString value)) ++ lit "\n    (local.set $n (i32.const " ++ (lit (toString value)) ++ lit "))\n    \n    ;; Check if less than 2\n    (if (i32.lt_s (local.get $n) (i32.const 2))\n      (then (return (i32.const 0)))\n    )\n    \n    ;; Check if equals 2\n    (if (i32.eq (local.get $n) (i32.const 2))\n      (then (return (i32.const 1)))\n    )\n    \n    ;; Check if even\n    (if (i32.eq (i32.rem_s (local.get $n) (i32.const 2)) (i32.const 0))\n      (then (return (i32.const 0)))\n    )\n    \n    ;; Loop from 3 to sqrt(n)\n    (local.set $i (i32.const 3))\n    (block $exit\n      (loop $continue\n        ;; If i*i > n, exit loop\n        (br_if $exit (i32.gt_s (i32.mul (local.get $i) (local.get $i)) (local.get $n)))\n        \n        ;; If n % i == 0, not prime\n        (if (i32.eq (i32.rem_s (local.get $n) (local.get $i)) (i32.const 0))\n          (then (return (i32.const 0)))\n        )\n        \n        ;; i += 2\n        (local.set $i (i32.add (local.get $i) (i32.const 2)))\n        (br $continue)\n      )\n    )\n    \n    ;; Is prime\n    (i32.const 1)\n  )\n)"

def watCollatz (value : Nat) : Txt :=
  lit "(module\n  ;; Collatz sequence steps for " ++ (lit (toString value)) ++ lit " - REAL ALGORITHM\n  (func (export \"main\") (param $dummy i32) (result i32)\n    (local $n i32)\n    (local $steps i32)\n    \n    ;; Initialize\n    (local.set $n (i32.const " ++ (lit (toString value)) ++ lit "))\n    (local.set $steps (i32.const 0))\n    \n    ;; Loop until n = 1\n    (block $exit\n      (loop $continue\n        ;; Exit if n = 1\n        (br_if $exit (i32.eq (local.get $n) (i32.const 1)))\n        \n        ;; Exit if steps > 1000 (safety)\n        (br_if $exit (i32.gt_s (local.get $steps) (i32.const 1000)))\n        \n        ;; If even: n = n / 2\n        ;; If odd: n = 3n + 1\n        (if (i32.eq (i32.rem_s (local.get $n) (i32.const 2)) (i32.const 0))\n          (then\n            ;; Even: n = n / 2\n            (local.set $n (i32.div_s (local.get $n) (i32.const 2)))\n          )\n          (else\n            ;; Odd: n = 3n + 1\n            (local.set $n \n              (i32.add \n                (i32.mul (local.get $n) (i32.const 3))\n                (i32.const 1)\n              )\n            )\n          )\n        )\n        \n        ;; Increment steps\n        (local.set $steps (i32.add (local.get $steps) (i32.const 1)))\n        \n        (br $continue)\n      )\n    )\n    \n    (local.get $steps)\n  )\n)"

def watDigitalRoot (value : Nat) : Txt :=
  lit "(module\n  ;; Digital root calculator for " ++ (lit (toString value)) ++ lit " - REAL ALGORITHM\n  (func (export \"main\") (param $dummy i32) (result i32)\n    (local $n i32)\n    (local $sum i32)\n    (local $digit i32)\n    \n    ;; Initialize\n    (local.set $n (i32.const " ++ (lit (toString value)) ++ lit "))\n    \n    ;; Loop until single digit\n    (block $outer_exit\n      (loop $outer_continue\n        ;; Exit if n < 10 (single digit)\n        (br_if $outer_exit (i32.lt_s (local.get $n) (i32.const 10)))\n        \n        ;; Calculate digit sum\n        (local.set $sum (i32.const 0))\n        (block $inner_exit\n          (loop $inner_continue\n            ;; Exit if n = 0\n            (br_if $inner_exit (i32.eq (local.get $n) (i32.const 0)))\n            \n            ;; Get last digit\n            (local.set $digit (i32.rem_s (local.get $n) (i32.const 10)))\n            ;; Add to sum\n            (local.set $sum (i32.add (local.get $sum) (local.get $digit)))\n            ;; Remove last digit\n            (local.set $n (i32.div_s (local.get $n) (i32.const 10)))\n            \n            (br $inner_continue)\n          )\n        )\n        \n        ;; Set n to sum for next iteration\n        (local.set $n (local.get $sum))\n        \n        (br $outer_continue)\n      )\n    )\n    \n    (local.get $n)\n  )\n)"

def watFibonacci (value : Nat) : Txt :=
  lit "(module\n  ;; Fibonacci calculator for n=" ++ (lit (toString value)) ++ lit " - ITERATIVE\n  (func (export \"main\") (param $dummy i32) (result i32)\n    (local $n i32)\n    (local $a i32)\n    (local $b i32)\n    (local $temp i32)\n    (local $i i32)\n    \n    (local.set $n (i32.const " ++ (lit (toString value)) ++ lit "))\n    \n    ;; Base cases\n    (if (i32.le_s (local.get $n) (i32.const 1))\n      (then (return (local.get $n)))\n    )\n    \n    ;; Initialize\n    (local.set $a (i32.const 0))\n    (local.set $b (i32.const 1))\n    (local.set $i (i32.const 2))\n    \n    ;; Loop\n    (block $exit\n      (loop $continue\n        ;; temp = a + b\n        (local.set $temp (i32.add (local.get $a) (local.get $b)))\n        ;; a = b\n        (local.set $a (local.get $b))\n        ;; b = temp\n        (local.set $b (local.get $temp))\n        ;; i++\n        (local.set $i (i32.add (local.get $i) (i32.const 1)))\n        ;; Continue if i <= n\n        (br_if $continue (i32.le_s (local.get $i) (local.get $n)))\n      )\n    )\n    \n    (local.get $b)\n  )\n)"

def watFactorial (value : Nat) : Txt :=
  lit "(module\n  ;; Factorial calculator for n=" ++ (lit (toString value)) ++ lit "\n  (func (export \"main\") (param $dummy i32) (result i32)\n    (local $n i32)\n    (local $result i32)\n    (local $i i32)\n    \n    (local.set $n (i32.const " ++ (lit (toString value)) ++ lit "))\n    (local.set $result (i32.const 1))\n    (local.set $i (i32.const 1))\n    \n    ;; Handle 0! = 1\n    (if (i32.eq (local.get $n) (i32.const 0))\n      (then (return (i32.const 1)))\n    )\n    \n    ;; Loop from 1 to n\n    (block $exit\n      (loop $continue\n        ;; result *= i\n        (local.set $result (i32.mul (local.get $result) (local.get $i)))\n        ;; i++\n        (local.set $i (i32.add (local.get $i) (i32.const 1)))\n        ;; Continue if i <= n\n        (br_if $continue (i32.le_s (local.get $i) (local.get $n)))\n      )\n    )\n    \n    (local.get $result)\n  )\n)"

def watGcd (a : Nat) (b : Nat) : Txt :=
  lit "(module\n  ;; GCD calculator for " ++ (lit (toString a)) ++ lit " and " ++ (lit (toString b)) ++ lit " - Euclidean algorithm\n  (func (export \"main\") (param $dummy i32) (result i32)\n    (local $a i32)\n    (local $b i32)\n    (local $temp i32)\n    \n    (local.set $a (i32.const " ++ (lit (toString a)) ++ lit "))\n    (local.set $b (i32.const " ++ (lit (toString b)) ++ lit "))\n    \n    ;; Euclidean algorithm\n    (block $exit\n      (loop $continue\n        ;; Exit if b = 0\n        (br_if $exit (i32.eq (local.get $b) (i32.const 0)))\n        \n        ;; temp = a % b\n        (local.set $temp (i32.rem_s (local.get $a) (local.get $b)))\n        ;; a = b\n        (local.set $a (local.get $b))\n        ;; b = temp\n        (local.set $b (local.get $temp))\n        \n        (br $continue)\n      )\n    )\n    \n    (local.get $a)\n  )\n)"

def watDefault : Txt :=
  lit "(module\n  ;; Default computation\n  (func (export \"main\") (param $dummy i32) (result i32)\n    i32.const 42\n  )\n)"

/-- Closed enumeration of algorithm families recognised by the matcher,
each carrying its extracted parameter(s). -/
inductive Fingerprint where
  | primality (n : Nat)
  | collatz (n : Nat)
  | digitalRoot (n : Nat)
  | fibonacci (n : Nat)
  | factorial (n : Nat)
  | gcd (a b : Nat)
  | unrecognized
  deriving DecidableEq

/-- The fingerprint matcher: the branch structure of
`generate_wat_from_c_analysis` (source lines 187, 237, 288, 336, 380, 415,
453), read as a classification — the `if/elif` chain evaluates the family
predicates in this fixed order and the first match wins.
`generate_eq_render_classify` below proves that the generator literally
factors through this classification. -/
def classify (code : Txt) : Fingerprint :=
  if hasPrimeCue code then Fingerprint.primality (primeParam code)
  else if hasCollatzCue code then Fingerprint.collatz (collatzParam code)
  else if hasDigitalCue code then Fingerprint.digitalRoot (digitalParam code)
  else if hasFibCue code then Fingerprint.fibonacci (fibParam code)
  else if hasFactCue code then Fingerprint.factorial (factParam code)
  else if hasGcdCue code then Fingerprint.gcd (gcdAval code) (gcdBval code)
  else Fingerprint.unrecognized

/-- Template renderer: family plus parameters to module text. -/
def render : Fingerprint → Txt
  | Fingerprint.primality n => watPrime n
  | Fingerprint.collatz n => watCollatz n
  | Fingerprint.digitalRoot n => watDigitalRoot n
  | Fingerprint.fibonacci n => watFibonacci n
  | Fingerprint.factorial n => watFactorial n
  | Fingerprint.gcd a b => watGcd a b
  | Fingerprint.unrecognized => watDefault

/-- `generate_wat_from_c_analysis` (source lines 168-461): the `if/elif`
dispatch over the detection cues, each branch extracting its parameter(s)
and rendering the family's template; the final `else` emits the fixed
default module. -/
def generate_wat_from_c_analysis (code : Txt) : Txt :=
  if hasPrimeCue code then watPrime (primeParam code)
  else if hasCollatzCue code then watCollatz (collatzParam code)
  else if hasDigitalCue code then watDigitalRoot (digitalParam code)
  else if hasFibCue code then watFibonacci (fibParam code)
  else if hasFactCue code then watFactorial (factParam code)
  else if hasGcdCue code then watGcd (gcdAval code) (gcdBval code)
  else watDefault

/-- i32 two's-complement wrap-around. -/
def wrap32 (x : Int) : Int := Int.emod (x + 2 ^ 31) (2 ^ 32) - 2 ^ 31

/-- WAT `i32.add` (wrapping). -/
def i32add (a b : Int) : Int := wrap32 (a + b)

/-- WAT `i32.mul` (wrapping). -/
def i32mul (a b : Int) : Int := wrap32 (a * b)

/-- WAT `i32.rem_s`: signed remainder, sign follows the dividend. -/
def i32rems (a b : Int) : Int := Int.tmod a b

/-- WAT `i32.div_s`: signed division truncating toward zero. -/
def i32divs (a b : Int) : Int := Int.tdiv a b

/-- One iteration body of the Collatz loop in the `watCollatz` template
(source lines 259-275): if `i32.rem_s n 2 = 0` then `n := i32.div_s n 2`
else `n := i32.add (i32.mul n 3) 1`. -/
def collatzNext (n : Int) : Int :=
  if i32rems n 2 = 0 then i32divs n 2 else i32add (i32mul n 3) 1

/-- The Collatz loop of the `watCollatz` template (source lines 251-282):
exit when `n = 1`, exit when `steps > 1000` (checked before the increment),
otherwise step and increment.  The fuel argument only makes the recursion
structural: started at `1002` with `steps = 0` it cannot reach `0`, because
the cutoff branch returns as soon as `steps` reaches `1001`. -/
def collatzLoop : Nat → Int → Nat → Nat
  | 0, _, steps => steps
  | fuel + 1, n, steps =>
      if n = 1 then steps
      else if 1000 < steps then steps
      else collatzLoop fuel (collatzNext n) (steps + 1)

/-- Entry point of the generated Collatz module with start value `n`
(source lines 242-285): runs the loop from `steps = 0` and returns the step
counter. -/
def collatzMain (n : Int) : Nat := collatzLoop 1002 n 0

/-- Entry point of the default module `watDefault` (source lines 456-461):
it ignores its parameter and returns the constant 42. -/
def defaultMain (dummy : Int) : Int := 42

/-- Result record of `compile_to_wasm` (and of the endpoint response
`CompileResponse`): the dict built at source lines 499-504 / 510-513. -/
structure CompileResult where
  success : Bool
  wat_content : Option Txt
  wasm_file : Option Txt
  wasm_size : Option Nat
  error : Option Txt
  deriving DecidableEq

/-- Python `s.replace(sub, rep)`: every non-overlapping occurrence, left to
right.  Fuel as in `scanSub`. -/
def pyReplaceGo (sub rep : Txt) : Nat → Txt → Txt
  | _, [] => []
  | 0, s => s
  | fuel + 1, c :: rest =>
      if sub ≠ [] ∧ sub.isPrefixOf (c :: rest) then
        rep ++ pyReplaceGo sub rep fuel ((c :: rest).drop sub.length)
      else c :: pyReplaceGo sub rep fuel rest

/-- Python `s.replace(sub, rep)` for nonempty `sub`. -/
def pyReplaceAll (s sub rep : Txt) : Txt := pyReplaceGo sub rep s.length s

/-- `compile_to_wasm` (source lines 463-513).  The try-block generates the
module text, derives `base_name = filename.replace('.c', '')`, a fresh
8-character suffix `str(uuid.uuid4())[:8]` (the fresh uuid string is the
explicit `uuidStr` argument here), and performs filesystem writes; `fsOp`
is the outcome of those filesystem operations — `Except.error e` means some
operation raised an exception with message `e`, which the source catches
and turns into the structured failure dict.  `wasm_size` is
`len(wat_content.encode('utf-8'))`; the module text is ASCII, so that is
its length. -/
def compile_to_wasm (code filename uuidStr : Txt) (fsOp : Except Txt Unit) : CompileResult :=
  let watContent := generate_wat_from_c_analysis code
  let baseName := pyReplaceAll filename (lit ".c") []
  let uniqueId := uuidStr.take 8
  let finalWatName := baseName ++ lit "_" ++ uniqueId ++ lit ".wat"
  match fsOp with
  | Except.error e =>
      { success := false, wat_content := none, wasm_file := none, wasm_size := none,
        error := some e }
  | Except.ok _ =>
      { success := true, wat_content := some watContent, wasm_file := some finalWatName,
        wasm_size := some watContent.length, error := none }

/-- Filesystem oracle for a run in which every write succeeds. -/
def fsOK : Except Txt Unit := Except.ok ()

/-- The `/api/compile-transformed` handler `compile_transformed` (source
lines 931-953): on success it copies the fields into the response, on
failure it returns a response with `success = false`, no artifact fields
and the error string (default `Unknown compilation error`). -/
def compile_transformed (code filename uuidStr : Txt) (fsOp : Except Txt Unit) : CompileResult :=
  let result := compile_to_wasm code filename uuidStr fsOp
  if result.success then
    { success := true, wat_content := result.wat_content, wasm_file := result.wasm_file,
      wasm_size := result.wasm_size, error := none }
  else
    { success := false, wat_content := none, wasm_file := none, wasm_size := none,
      error := some (result.error.getD (lit "Unknown compilation error")) }

/-- The type-narrowing change-log entry is appended unconditionally (source
line 126), so it is in every change list `transform_for_zkengine` returns. -/
theorem conv_mem_changes (code : Txt) :
    lit "Converted int/float to int32_t" ∈ (transform_for_zkengine code).2 := by
  simp [transform_for_zkengine]

/-- The generator literally factors through the classification: evaluating
the `if/elif` chain equals classifying first and rendering the resulting
fingerprint. -/
theorem generate_eq_render_classify (code : Txt) :
    generate_wat_from_c_analysis code = render (classify code) := by
  unfold generate_wat_from_c_analysis classify
  by_cases h1 : hasPrimeCue code = true <;> by_cases h2 : hasCollatzCue code = true <;>
    by_cases h3 : hasDigitalCue code = true <;> by_cases h4 : hasFibCue code = true <;>
      by_cases h5 : hasFactCue code = true <;> by_cases h6 : hasGcdCue code = true <;>
        simp [h1, h2, h3, h4, h5, h6, render]

/-- Bound for the Collatz loop: starting anywhere consistent with the fuel
discipline (`steps + fuel = 1002`, `steps ≤ 1001`), the returned counter
never exceeds 1001, because the cutoff `steps > 1000` fires before a
1002nd increment can happen. -/
theorem collatzLoop_le (fuel : Nat) :
    ∀ (n : Int) (steps : Nat), steps + fuel = 1002 → steps ≤ 1001 →
      collatzLoop fuel n steps ≤ 1001 := by
  induction fuel with
  | zero =>
      intro n steps h1 h2
      simpa [collatzLoop] using h2
  | succ f ih =>
      intro n steps h1 h2
      simp only [collatzLoop]
      split
      · exact h2
      · split
        · exact h2
        · exact ih (collatzNext n) (steps + 1) (by omega) (by omega)

/-- C1, counterexample.  The claim says a second `normalize` run returns an
empty additional change list; on the source text `int x = 3;` the second
run leaves the text unchanged but still reports the unconditional
type-narrowing change, so the additional change set is nonempty. -/
theorem claim_C1_counterexample :
    (transform_for_zkengine (transform_for_zkengine (lit "int x = 3;")).1).2
        = [lit "Converted int/float to int32_t"]
      ∧ (transform_for_zkengine (transform_for_zkengine (lit "int x = 3;")).1).1
        = (transform_for_zkengine (lit "int x = 3;")).1 := by decide

/-- C1, amended.  Running `transform_for_zkengine` on the output of
`transform_for_zkengine` never produces an empty change list: the entry
`Converted int/float to int32_t` is appended unconditionally on every run,
so re-normalization always reports at least that change again. -/
theorem claim_C1 (code : Txt) :
    lit "Converted int/float to int32_t"
        ∈ (transform_for_zkengine (transform_for_zkengine code).1).2
      ∧ (transform_for_zkengine (transform_for_zkengine code).1).2 ≠ [] :=
  ⟨conv_mem_changes (transform_for_zkengine code).1,
    List.ne_nil_of_mem (conv_mem_changes (transform_for_zkengine code).1)⟩

/-- C2, counterexample.  The claim says the digit-sum detection predicate is
case-insensitive; in the source (line 288) it tests `code` without
lowercasing, so upper-casing the cue changes the verdict. -/
theorem claim_C2_counterexample :
    hasDigitalCue (lit "digit_sum") = true ∧ hasDigitalCue (lit "DIGIT_SUM") = false := by
  decide

/-- C2, amended.  Only the Collatz detection predicate is case-insensitive
(it tests `code.lower()`): texts with equal lowercasings get the same
Collatz verdict.  Primality, digital-root/digit-sum, Fibonacci, factorial
and GCD detection are all case-sensitive — for each, upper-casing its cue
changes the verdict. -/
theorem claim_C2 :
    (∀ t u : Txt, pyLowerTxt t = pyLowerTxt u → hasCollatzCue t = hasCollatzCue u)
      ∧ hasCollatzCue (lit "CoLLaTz") = true
      ∧ (hasPrimeCue (lit "is_prime") = true ∧ hasPrimeCue (lit "IS_PRIME") = false)
      ∧ (hasDigitalCue (lit "digit_sum") = true ∧ hasDigitalCue (lit "DIGIT_SUM") = false)
      ∧ (hasFibCue (lit "fibonacci") = true ∧ hasFibCue (lit "FIBONACCI") = false)
      ∧ (hasFactCue (lit "factorial") = true ∧ hasFactCue (lit "FACTORIAL") = false)
      ∧ (hasGcdCue (lit "gcd") = true ∧ hasGcdCue (lit "GCD") = false) := by
  refine ⟨fun t u h => ?_, by decide, by decide, by decide, by decide, by decide, by decide⟩
  simp only [hasCollatzCue]
  rw [h]

/-- Witness for C2 at a concrete input. -/
theorem claim_C2_witness :
    hasCollatzCue (lit "COLLATZ") = hasCollatzCue (lit "collatz") :=
  claim_C2.1 (lit "COLLATZ") (lit "collatz") (by decide)

/-- C3, counterexample.  The claim says every assignment probe precedes the
call probe, which would extract 23 from this text (`n = 23` is an
assignment to the second candidate name); the source tries the call probe
inside the per-candidate loop, so `is_prime(99)` wins right after the
first candidate's assignment probe fails. -/
theorem claim_C3_counterexample :
    extract_value (lit "n = 23; is_prime(99);") primeVars (some (lit "is_prime")) 17 = 99 := by
  decide

/-- C3, amended.  Parameter extraction probes, for each candidate name in
priority order, the assignment form and then — in the same loop iteration —
the call form; the first success wins, so a call probe can beat an
assignment to a lower-priority candidate, and the hard-coded default is
used exactly when every probe fails.  Text with `number_to_check = 23` and
`is_prime(99)` still extracts 23, because `number_to_check` is the first
candidate. -/
theorem claim_C3 :
    extract_value (lit "number_to_check = 23; is_prime(99);") primeVars
        (some (lit "is_prime")) 17 = 23
      ∧ extract_value (lit "n = 23; is_prime(99);") primeVars (some (lit "is_prime")) 17 = 99
      ∧ ∀ (code : Txt) (vars : List Txt) (f : Txt) (d : Nat),
          (∀ v ∈ vars, firstMatch (matchAssign v) code = none) →
          firstMatch (matchCallVal f) code = none →
          extract_value code vars (some f) d = d := by
  refine ⟨by decide, by decide, ?_⟩
  intro code vars f d
  induction vars with
  | nil => intro _ _; simp [extract_value]
  | cons v rest ih =>
      intro hA hC
      have h1 : firstMatch (matchAssign v) code = none := hA v (by simp)
      simp only [extract_value, h1, hC]
      exact ih (fun w hw => hA w (by simp [hw])) hC

/-- Witness for C3 at a concrete input where every probe fails. -/
theorem claim_C3_witness :
    extract_value (lit "zz") primeVars (some (lit "is_prime")) 17 = 17 :=
  claim_C3.2.2 (lit "zz") primeVars (lit "is_prime") 17 (by decide) (by decide)

set_option maxRecDepth 8000 in
/-- C4, counterexample.  The claim says the returned step count never
exceeds 1000; the cutoff check `steps > 1000` runs before the increment,
so for starting value 0 (which loops 0 to 0 forever) the module returns
1001. -/
theorem claim_C4_counterexample : 1000 < collatzMain 0 := by
  decide

/-- C4, amended.  The Collatz loop of the generated module terminates for
every i32 starting value, including 0 and negative values, because of the
safety cutoff, and the returned step count never exceeds 1001 (1001 is
attainable, so 1000 is not the tight bound); absent the cutoff it counts
one transition per step until `n` reaches 1 — for start 6 it returns 8. -/
theorem claim_C4 :
    (∀ n : Int, collatzMain n ≤ 1001) ∧ collatzMain 6 = 8 :=
  ⟨fun n => collatzLoop_le 1002 n 0 rfl (by omega), by decide⟩

/-- C5, confirmed.  Module generation is a function of the code text alone,
so two compile invocations with identical code and filename produce
byte-identical module text and equal sizes, while the persisted artifact
names differ whenever the two freshly drawn 8-character unique suffixes
differ. -/
theorem claim_C5 (code filename u1 u2 : Txt) :
    (compile_to_wasm code filename u1 fsOK).wat_content
        = (compile_to_wasm code filename u2 fsOK).wat_content
      ∧ (compile_to_wasm code filename u1 fsOK).wasm_size
        = (compile_to_wasm code filename u2 fsOK).wasm_size
      ∧ (u1.take 8 ≠ u2.take 8 →
          (compile_to_wasm code filename u1 fsOK).wasm_file
            ≠ (compile_to_wasm code filename u2 fsOK).wasm_file) := by
  refine ⟨rfl, rfl, fun hne heq => hne ?_⟩
  simp only [compile_to_wasm, fsOK, Option.some.injEq, List.append_assoc] at heq
  have h1 := List.append_cancel_left heq
  have h2 := List.append_cancel_left h1
  exact List.append_cancel_right h2

/-- Witness for C5 at concrete inputs with distinct unique suffixes. -/
theorem claim_C5_witness :
    (compile_to_wasm (lit "x") (lit "t.c") (lit "aaaaaaaa-1111") fsOK).wasm_file
      ≠ (compile_to_wasm (lit "x") (lit "t.c") (lit "bbbbbbbb-2222") fsOK).wasm_file :=
  (claim_C5 (lit "x") (lit "t.c") (lit "aaaaaaaa-1111") (lit "bbbbbbbb-2222")).2.2 (by decide)

/-- C6, confirmed.  Whatever the filesystem does, `compile_to_wasm` and the
endpoint handler `compile_transformed` return a structured result: a failed
result carries no artifact fields and does carry an error string, a
successful one carries no error; and a raised filesystem exception `e` is
converted into the `success = false` result carrying exactly `e`. -/
theorem claim_C6 (code filename uuidStr : Txt) (fsOp : Except Txt Unit) :
    ((compile_to_wasm code filename uuidStr fsOp).success = false →
        (compile_to_wasm code filename uuidStr fsOp).wat_content = none
          ∧ (compile_to_wasm code filename uuidStr fsOp).wasm_file = none
          ∧ (compile_to_wasm code filename uuidStr fsOp).wasm_size = none
          ∧ (compile_to_wasm code filename uuidStr fsOp).error.isSome = true)
      ∧ ((compile_transformed code filename uuidStr fsOp).success = false →
          (compile_transformed code filename uuidStr fsOp).wat_content = none
            ∧ (compile_transformed code filename uuidStr fsOp).wasm_file = none
            ∧ (compile_transformed code filename uuidStr fsOp).wasm_size = none
            ∧ (compile_transformed code filename uuidStr fsOp).error.isSome = true)
      ∧ (∀ e, fsOp = Except.error e →
          (compile_to_wasm code filename uuidStr fsOp).success = false
            ∧ (compile_to_wasm code filename uuidStr fsOp).error = some e) := by
  cases fsOp <;> simp [compile_to_wasm, compile_transformed]

/-- Witness for C6 at a concrete failing filesystem operation. -/
theorem claim_C6_witness :
    (compile_to_wasm (lit "x") (lit "t.c") (lit "u")
          (Except.error (lit "disk full"))).wat_content = none
      ∧ (compile_to_wasm (lit "x") (lit "t.c") (lit "u")
          (Except.error (lit "disk full"))).error.isSome = true := by
  have h := (claim_C6 (lit "x") (lit "t.c") (lit "u") (Except.error (lit "disk full"))).1
    (by decide)
  exact ⟨h.1, h.2.2.2⟩

/-- C7, confirmed.  For text matching none of the six family cues, the
generator emits the fixed default module, classification is Unrecognized,
compilation succeeds (with functioning filesystem), the persisted content
is that default module, and its entry point returns the sentinel 42 on any
argument. -/
theorem claim_C7 (code filename uuidStr : Txt) (dummy : Int)
    (h1 : hasPrimeCue code = false) (h2 : hasCollatzCue code = false)
    (h3 : hasDigitalCue code = false) (h4 : hasFibCue code = false)
    (h5 : hasFactCue code = false) (h6 : hasGcdCue code = false) :
    generate_wat_from_c_analysis code = watDefault
      ∧ classify code = Fingerprint.unrecognized
      ∧ (compile_to_wasm code filename uuidStr fsOK).success = true
      ∧ (compile_to_wasm code filename uuidStr fsOK).wat_content = some watDefault
      ∧ defaultMain dummy = 42 := by
  have hg : generate_wat_from_c_analysis code = watDefault := by
    simp [generate_wat_from_c_analysis, h1, h2, h3, h4, h5, h6]
  refine ⟨hg, by simp [classify, h1, h2, h3, h4, h5, h6],
    by simp [compile_to_wasm, fsOK], ?_, rfl⟩
  simp [compile_to_wasm, fsOK, hg]

/-- Witness for C7 at a concrete cue-free input. -/
theorem claim_C7_witness :
    generate_wat_from_c_analysis (lit "hello") = watDefault
      ∧ (compile_to_wasm (lit "hello") (lit "t.c") (lit "u") fsOK).success = true := by
  have h := claim_C7 (lit "hello") (lit "t.c") (lit "u") 0
    (by decide) (by decide) (by decide) (by decide) (by decide) (by decide)
  exact ⟨h.1, h.2.2.1⟩

/-- C8, confirmed.  The matcher evaluates the family predicates in the fixed
order primality, Collatz, digital-root, Fibonacci, factorial, GCD,
Unrecognized, and the first match wins; in particular any text containing a
primality cue — even together with a Collatz cue — classifies as the
primality family. -/
theorem claim_C8 (code : Txt) :
    (hasPrimeCue code = true → classify code = Fingerprint.primality (primeParam code))
      ∧ (hasPrimeCue code = false → hasCollatzCue code = true →
          classify code = Fingerprint.collatz (collatzParam code))
      ∧ (hasPrimeCue code = false → hasCollatzCue code = false → hasDigitalCue code = true →
          classify code = Fingerprint.digitalRoot (digitalParam code))
      ∧ (hasPrimeCue code = false → hasCollatzCue code = false → hasDigitalCue code = false →
          hasFibCue code = true → classify code = Fingerprint.fibonacci (fibParam code))
      ∧ (hasPrimeCue code = false → hasCollatzCue code = false → hasDigitalCue code = false →
          hasFibCue code = false → hasFactCue code = true →
          classify code = Fingerprint.factorial (factParam code))
      ∧ (hasPrimeCue code = false → hasCollatzCue code = false → hasDigitalCue code = false →
          hasFibCue code = false → hasFactCue code = false → hasGcdCue code = true →
          classify code = Fingerprint.gcd (gcdAval code) (gcdBval code))
      ∧ (hasPrimeCue code = false → hasCollatzCue code = false → hasDigitalCue code = false →
          hasFibCue code = false → hasFactCue code = false → hasGcdCue code = false →
          classify code = Fingerprint.unrecognized) := by
  unfold classify
  refine ⟨?_, ?_, ?_, ?_, ?_, ?_, ?_⟩ <;> intros <;> simp_all

/-- Witness for C8: a text containing both a primality and a Collatz cue
classifies as the primality family. -/
theorem claim_C8_witness :
    classify (lit "is_prime collatz")
      = Fingerprint.primality (primeParam (lit "is_prime collatz")) :=
  (claim_C8 (lit "is_prime collatz")).1 (by decide)

/-- C9, confirmed.  The change list returned by the normalizer always
contains the unconditionally appended entry `Converted int/float to
int32_t`, so it is never empty. -/
theorem claim_C9 (code : Txt) :
    lit "Converted int/float to int32_t" ∈ (transform_for_zkengine code).2
      ∧ (transform_for_zkengine code).2 ≠ [] :=
  ⟨conv_mem_changes code, List.ne_nil_of_mem (conv_mem_changes code)⟩

/-- C10, confirmed.  `base_name = filename.replace('.c', '')` removes every
occurrence of the substring `.c`, not only a trailing extension: filename
`my.code.c` yields base name `myode`, and the persisted artifact name
starts with `myode_`. -/
theorem claim_C10 :
    pyReplaceAll (lit "my.code.c") (lit ".c") [] = lit "myode"
      ∧ (compile_to_wasm (lit "x") (lit "my.code.c") (lit "0123456789ab") fsOK).wasm_file
          = some (lit "myode_01234567.wat") := by decide
